import Mathlib

/-
Verification development for the video-channel analytics module
(src/youtube.py): the bounded-retry decorator `backoff_strategy`, the
paginated collector `get_video_ids`, the per-video detail fetcher
`fetch_video_details`, the collection pipeline driven by `main`, and the
PDF-export sanitizer `remove_emojis` inside `generate_pdf_report`.

Modelling conventions.  Python exceptions are the inductive `PyExc`
(`googleapiclient.errors.HttpError` carrying `e.resp.status`, and every
other exception as `genericExc` with its message).  The remote API is an
explicit oracle: pagination consumes a list of responses in request
order, and single-object lookups are functions from the request key to
the (optional) decoded response.  A function that may raise returns
`Except PyExc`.  `time.sleep` calls are recorded as the list of slept
durations, in order.  Streamlit UI calls (`st.error`, `st.warning`,
`st.info`, spinners, charts) have no effect on the collected data and
are not modelled, except for `st.progress`, whose emitted values the
pipeline model returns, since the spec constrains them.
-/

/-- A Python exception as classified by `backoff_strategy` in
src/youtube.py: an `HttpError` is inspected via `e.resp.status`; every
other exception falls into the generic `except Exception` arm. -/
inductive PyExc : Type where
  | httpError (status : Nat) : PyExc
  | genericExc (msg : String) : PyExc
deriving DecidableEq

/-- The message of the exception raised at line 31 of src/youtube.py when
the retry loop falls through. -/
def maxRetriesMsg : String := "Max retries exceeded. Please try again later."

/-- Line 20 of src/youtube.py: an error is retried exactly when it is an
`HttpError` whose status is 403 or 429. -/
def isRetriable : PyExc → Bool
  | PyExc.httpError s => s == 403 || s == 429
  | PyExc.genericExc _ => false

/-- The loop body of the wrapper built by `backoff_strategy`
(src/youtube.py lines 14-31).  `f i` is the outcome of the i-th call of
the wrapped function (attempts are numbered from 0), `n` the remaining
iterations of `for i in range(retries)`, `delay` the current delay,
`sleeps` the durations slept so far.  A retriable failure sleeps `delay`,
doubles it and continues; any other failure is re-raised at once; when
the loop falls through, the terminal max-retries exception is raised. -/
def backoffLoop {α : Type} (f : Nat → Except PyExc α) :
    Nat → Nat → Nat → List Nat → Except PyExc α × List Nat
  | 0, _, _, sleeps => (Except.error (PyExc.genericExc maxRetriesMsg), sleeps)
  | n + 1, delay, i, sleeps =>
    match f i with
    | Except.ok a => (Except.ok a, sleeps)
    | Except.error e =>
      if isRetriable e then backoffLoop f n (delay * 2) (i + 1) (sleeps ++ [delay])
      else (Except.error e, sleeps)

/-- One run of the wrapper produced by `backoff_strategy(retries,
initial_delay)` (src/youtube.py lines 12-33) around a call whose i-th
attempt yields `f i`: the final outcome together with the list of sleep
durations performed, in order. -/
def backoff_strategy {α : Type} (retries initial_delay : Nat)
    (f : Nat → Except PyExc α) : Except PyExc α × List Nat :=
  backoffLoop f retries initial_delay 0 []

/-- One decoded `playlistItems().list` response page (src/youtube.py
lines 90-110): the video ids of its items, and the value of
`response.get(nextPageToken)` (`none` when the key is absent). -/
structure Page : Type where
  items : List String
  nextPageToken : Option String
deriving DecidableEq

/-- The body of the `try` block of `get_video_ids` (src/youtube.py lines
88-112).  The remote is the list of responses it returns to successive
`request.execute()` calls, each either a decoded page or a raised
exception.  Page items are appended in arrival order; a page without a
continuation token ends the loop; a raised exception aborts the body.
An exhausted response list is modelled as a raised exception (the real
remote always responds; theorems assume enough responses). -/
def goPages : List (Except PyExc Page) → Except PyExc (List String)
  | [] => Except.error (PyExc.genericExc "no response")
  | r :: rest =>
    match r with
    | Except.error e => Except.error e
    | Except.ok page =>
      match page.nextPageToken with
      | none => Except.ok page.items
      | some _ =>
        match goPages rest with
        | Except.ok ids => Except.ok (page.items ++ ids)
        | Except.error e => Except.error e

/-- `get_video_ids` (src/youtube.py lines 86-115): runs the pagination
body and, through `except Exception: ... return []` at lines 113-115,
turns any raised exception into the empty list. -/
def get_video_ids (responses : List (Except PyExc Page)) : List String :=
  match goPages responses with
  | Except.ok ids => ids
  | Except.error _ => []

/-- The channel record built by `get_channel_stats` (src/youtube.py
lines 70-76), field names as in the source dict. -/
structure ChannelStats : Type where
  Channel_name : String
  Subscribers : Nat
  Views : Nat
  Total_videos : Nat
  playlist_id : String
deriving DecidableEq

/-- The fields read from a `videos().list` response item by
`fetch_video_details` (src/youtube.py lines 130-137). -/
structure VideoInfo : Type where
  title : String
  channelTitle : String
  viewCount : Nat
  likeCount : Nat
  commentCount : Nat
  duration : String
  publishedAt : String
deriving DecidableEq

/-- The video record appended by `fetch_video_details` (src/youtube.py
lines 138-147); `Published_At` and `Video_URL` stand for the source keys
with a space. -/
structure VideoDetail : Type where
  Title : String
  Views : Nat
  Likes : Nat
  Comments : Nat
  Duration : String
  Published_At : String
  Video_URL : String
  Channel : String
deriving DecidableEq

/-- The record literal of src/youtube.py lines 138-147 for one video id
and its decoded response item. -/
def mkVideoDetail (video_id : String) (info : VideoInfo) : VideoDetail :=
  { Title := info.title
    Views := info.viewCount
    Likes := info.likeCount
    Comments := info.commentCount
    Duration := info.duration
    Published_At := info.publishedAt
    Video_URL := "https://youtube.com/watch?v=" ++ video_id
    Channel := info.channelTitle }

/-- The `for video_id in video_ids` loop of `fetch_video_details`
(src/youtube.py lines 123-147): one `videos().list` call per id, in input
order; an id whose response has no items contributes nothing. -/
def fetchDetailsLoop (videoInfo : String → Option VideoInfo) :
    List String → List VideoDetail → List VideoDetail
  | [], acc => acc
  | vid :: rest, acc =>
    match videoInfo vid with
    | none => fetchDetailsLoop videoInfo rest acc
    | some info => fetchDetailsLoop videoInfo rest (acc ++ [mkVideoDetail vid info])

/-- `fetch_video_details` (src/youtube.py lines 119-151) with the remote
modelled by `videoInfo`: `videoInfo vid` is the first item of the
response to the lookup for `vid`, or `none` when the item list is empty. -/
def fetch_video_details (videoInfo : String → Option VideoInfo)
    (video_ids : List String) : List VideoDetail :=
  fetchDetailsLoop videoInfo video_ids []

/-- The remote API as seen by one run of the Analyze handler in `main`:
`get_channel_id` resolves a channel name (both the not-found and the
exception branch of src/youtube.py lines 46-53 return `None`);
`get_channel_stats` looks up the statistics record (lines 65-82);
`videoPages` gives the pagination responses for a playlist id;
`videoInfo` gives the per-video lookup used by `fetch_video_details`. -/
structure Env : Type where
  get_channel_id : String → Option String
  get_channel_stats : String → Option ChannelStats
  videoPages : String → List (Except PyExc Page)
  videoInfo : String → Option VideoInfo

/-- The body of `main`-loop iteration for one channel name
(src/youtube.py lines 670-683): resolve the name; on success fetch the
stats; on success append the stats record, paginate the uploads playlist
and, when ids came back non-empty, fetch per-video details, overwrite
each `Channel` field with the channel name, and extend the accumulator.
Returns the contributions to `channel_data` and `video_details_all`. -/
def processChannel (env : Env) (channel_name : String) :
    List ChannelStats × List VideoDetail :=
  match env.get_channel_id channel_name with
  | none => ([], [])
  | some channel_id =>
    match env.get_channel_stats channel_id with
    | none => ([], [])
    | some channel_stats =>
      let video_ids := get_video_ids (env.videoPages channel_stats.playlist_id)
      if video_ids.isEmpty then ([channel_stats], [])
      else
        let video_details := fetch_video_details env.videoInfo video_ids
        ([channel_stats],
         video_details.map (fun v => { v with Channel := channel_stats.Channel_name }))

/-- The `for i, channel_name in enumerate(channel_names)` loop of `main`
(src/youtube.py lines 670-684) with its three accumulators: the
`channel_data` list, the `video_details_all` list, and the sequence of
values passed to `progress_bar.progress`, namely `(i + 1) / total` after
each iteration, failed or not. -/
def mainLoop (env : Env) (total : Nat) :
    List String → Nat → List ChannelStats → List VideoDetail → List ℚ →
    List ChannelStats × List VideoDetail × List ℚ
  | [], _, channel_data, video_details_all, progress =>
    (channel_data, video_details_all, progress)
  | channel_name :: rest, i, channel_data, video_details_all, progress =>
    let step := processChannel env channel_name
    mainLoop env total rest (i + 1) (channel_data ++ step.1)
      (video_details_all ++ step.2)
      (progress ++ [((i : ℚ) + 1) / (total : ℚ)])

/-- The data-collection phase of the Analyze handler (src/youtube.py
lines 662-684): run the loop over the input names with
`total_channels = len(channel_names)` and empty accumulators. -/
def runPipeline (env : Env) (channel_names : List String) :
    List ChannelStats × List VideoDetail × List ℚ :=
  mainLoop env channel_names.length channel_names 0 [] [] []

/-- The Analyze handler of `main` as parameterised by the two sidebar
sliders (src/youtube.py lines 651-652).  As in the source, `retries` and
`initial_delay` are read but never passed to any fetch function, and
`backoff_strategy` is applied nowhere, so the collected data is
`runPipeline env channel_names` regardless of them. -/
def mainAnalyze (retries initial_delay : Nat) (env : Env)
    (channel_names : List String) :
    List ChannelStats × List VideoDetail × List ℚ :=
  runPipeline env channel_names

/-- `remove_emojis` (src/youtube.py lines 601-605) on a string argument:
the ascii-encode-with-ignore then decode round trip keeps exactly the
characters with code point below 128, in order. -/
def remove_emojis (text : String) : String :=
  String.mk (text.data.filter (fun c => c.toNat < 128))

/-- The four cell texts written per channel record by
`generate_pdf_report` (src/youtube.py lines 610-618), each passed
through `remove_emojis`. -/
def channelLines (c : ChannelStats) : List String :=
  [remove_emojis ("Channel: " ++ c.Channel_name),
   remove_emojis ("Subscribers: " ++ toString c.Subscribers),
   remove_emojis ("Views: " ++ toString c.Views),
   remove_emojis ("Total Videos: " ++ toString c.Total_videos)]

/-- The five cell texts written per video record by `generate_pdf_report`
(src/youtube.py lines 623-632), each passed through `remove_emojis`. -/
def videoLines (v : VideoDetail) : List String :=
  [remove_emojis ("Channel: " ++ v.Channel),
   remove_emojis ("Title: " ++ v.Title),
   remove_emojis ("Views: " ++ toString v.Views),
   remove_emojis ("Likes: " ++ toString v.Likes),
   remove_emojis ("Comments: " ++ toString v.Comments)]

/-- `generate_pdf_report` (src/youtube.py lines 595-640) as the ordered
sequence of cell texts it writes into the PDF: the two section headers
(ASCII literals, written without sanitising) and the sanitised field
lines of every channel and video record. -/
def generate_pdf_report (channel_data : List ChannelStats)
    (video_details : List VideoDetail) : List String :=
  "Channel Comparison" :: channel_data.flatMap channelLines ++
    "Video Details" :: video_details.flatMap videoLines

/-- A concrete remote used by the witnesses: the name "bad" does not
resolve, the channel id "ugly_id" has no statistics record, every other
lookup succeeds, and every playlist paginates as a single final page. -/
def cenv : Env :=
  { get_channel_id := fun n => if n = "bad" then none else some (n ++ "_id")
    get_channel_stats := fun cid =>
      if cid = "ugly_id" then none
      else some ⟨cid ++ "_name", 10, 100, 2, cid ++ "_pl"⟩
    videoPages := fun _ => [Except.ok ⟨["v1", "v2"], none⟩]
    videoInfo := fun v => some ⟨v ++ "_t", "ct", 7, 5, 3, "PT1M", "2024-01-01T00:00:00Z"⟩ }

/-- Helper: when the first k attempts fail retriably and attempt k
succeeds, the retry loop returns the success and has slept the doubling
delays d, 2d, ..., 2^(k-1)d after the sleeps already recorded. -/
theorem backoffLoop_ok {α : Type} (f : Nat → Except PyExc α) (a : α)
    (k : Nat) :
    ∀ (n d i : Nat) (sleeps : List Nat), k < n →
      (∀ j, j < k → ∃ e, f (i + j) = Except.error e ∧ isRetriable e = true) →
      f (i + k) = Except.ok a →
      backoffLoop f n d i sleeps =
        (Except.ok a, sleeps ++ (List.range k).map (fun j => d * 2 ^ j)) := by
  induction k with
  | zero =>
    intro n d i sleeps hk _ hok
    obtain ⟨m, rfl⟩ : ∃ m, n = m + 1 := ⟨n - 1, by omega⟩
    rw [Nat.add_zero] at hok
    simp [backoffLoop, hok]
  | succ k ih =>
    intro n d i sleeps hk hfail hok
    obtain ⟨m, rfl⟩ : ∃ m, n = m + 1 := ⟨n - 1, by omega⟩
    obtain ⟨e, he, hre⟩ := hfail 0 (by omega)
    rw [Nat.add_zero] at he
    simp only [backoffLoop, he, hre, if_true]
    rw [ih m (d * 2) (i + 1) (sleeps ++ [d]) (by omega)
      (fun j hj => by
        obtain ⟨e2, he2, hre2⟩ := hfail (j + 1) (by omega)
        refine ⟨e2, ?_, hre2⟩
        rw [show i + 1 + j = i + (j + 1) by omega]
        exact he2)
      (by rw [show i + 1 + k = i + (k + 1) by omega]; exact hok)]
    rw [List.range_succ_eq_map, List.map_cons, List.map_map,
      List.append_assoc, List.singleton_append]
    have hmap : List.map (fun j => d * 2 * 2 ^ j) (List.range k) =
        List.map ((fun j => d * 2 ^ j) ∘ Nat.succ) (List.range k) :=
      List.map_congr_left (fun j _ => by
        simp only [Function.comp_apply, Nat.succ_eq_add_one, pow_succ]
        ring)
    rw [hmap]
    simp

/-- Helper: the doubling delay list sums to d * (2^k - 1). -/
theorem rangePowSum (d k : Nat) :
    ((List.range k).map (fun j => d * 2 ^ j)).sum = d * (2 ^ k - 1) := by
  induction k with
  | zero => simp
  | succ k ih =>
    rw [List.range_succ, List.map_append, List.sum_append, ih]
    have h1 : 1 ≤ 2 ^ k := Nat.one_le_two_pow
    have h2 : 1 ≤ 2 ^ (k + 1) := Nat.one_le_two_pow
    simp only [List.map_cons, List.map_nil, List.sum_cons, List.sum_nil, add_zero]
    zify [h1, h2]
    rw [pow_succ]
    ring

/-- Helper: when every attempt fails retriably, the loop falls through
and raises the max-retries exception. -/
theorem backoffLoop_exhaust {α : Type} (f : Nat → Except PyExc α) (n : Nat) :
    ∀ (d i : Nat) (sleeps : List Nat),
      (∀ j, j < n → ∃ e, f (i + j) = Except.error e ∧ isRetriable e = true) →
      (backoffLoop f n d i sleeps).1 =
        Except.error (PyExc.genericExc maxRetriesMsg) := by
  induction n with
  | zero =>
    intro d i sleeps _
    rfl
  | succ n ih =>
    intro d i sleeps hfail
    obtain ⟨e, he, hre⟩ := hfail 0 (by omega)
    rw [Nat.add_zero] at he
    simp only [backoffLoop, he, hre, if_true]
    exact ih (d * 2) (i + 1) (sleeps ++ [d]) (fun j hj => by
      obtain ⟨e2, he2, hre2⟩ := hfail (j + 1) (by omega)
      refine ⟨e2, ?_, hre2⟩
      rw [show i + 1 + j = i + (j + 1) by omega]
      exact he2)

/-- C2 (amended): the claim as stated fails on the code because
`backoff_strategy` is applied to nothing, so the paginated fetch never
retries (see the counterexample).  What does hold is the retry contract
of `backoff_strategy` itself: if the wrapped call fails k times with a
retriable error and then succeeds, with k below the attempt bound, the
wrapper returns the success, the delay before the j-th retry is
initial_delay * 2^(j-1) with no reset, and the total slept time is
initial_delay * (2^k - 1). -/
theorem backoff_retries_then_success {α : Type} (f : Nat → Except PyExc α)
    (k retries d : Nat) (a : α) (hk : k < retries)
    (hfail : ∀ j, j < k → ∃ e, f j = Except.error e ∧ isRetriable e = true)
    (hok : f k = Except.ok a) :
    backoff_strategy retries d f =
      (Except.ok a, (List.range k).map (fun j => d * 2 ^ j)) ∧
    ((List.range k).map (fun j => d * 2 ^ j)).sum = d * (2 ^ k - 1) := by
  constructor
  · have h := backoffLoop_ok f a k retries d 0 [] hk
      (fun j hj => by simpa using hfail j hj) (by simpa using hok)
    simpa [backoff_strategy] using h
  · exact rangePowSum d k

/-- Witness for C2 (amended): one retriable 403 failure, then success,
with the default retries = 3 and initial_delay = 5: the wrapper returns
the success after a single sleep of 5. -/
theorem backoff_retries_then_success_witness :
    backoff_strategy 3 5
        (fun j => if j = 0 then Except.error (PyExc.httpError 403)
          else Except.ok "page") =
      (Except.ok "page", (List.range 1).map (fun j => 5 * 2 ^ j)) ∧
    ((List.range 1).map (fun j => 5 * 2 ^ j)).sum = 5 * (2 ^ 1 - 1) :=
  backoff_retries_then_success _ 1 3 5 "page" (by omega)
    (fun j hj => by
      obtain rfl : j = 0 := by omega
      exact ⟨PyExc.httpError 403, rfl, rfl⟩)
    rfl

/-- C2 counterexample: in the source, `get_video_ids` is not wrapped by
`backoff_strategy` (nothing is), so a page fetch that raises a retriable
HTTP 403 once and would succeed on a second request is never re-issued:
the run returns the empty list instead of the complete result, and no
sleep occurs. -/
theorem get_video_ids_no_retry_counterexample :
    get_video_ids [Except.error (PyExc.httpError 403),
        Except.ok (Page.mk ["a"] none)] = [] ∧
    ([] : List String) ≠ ["a"] :=
  ⟨rfl, by simp⟩

/-- C4: a non-retriable error (any HTTP status other than 403/429, or a
non-HTTP exception) on the first attempt is re-raised at once by the
`backoff_strategy` wrapper: the underlying exception surfaces unchanged
and the recorded sleep list is empty, so elapsed simulated time is
zero and no retry budget is consumed. -/
theorem backoff_nonretriable_immediate {α : Type} (f : Nat → Except PyExc α)
    (retries d : Nat) (e : PyExc) (hr : 0 < retries)
    (h0 : f 0 = Except.error e) (hnr : isRetriable e = false) :
    backoff_strategy retries d f = (Except.error e, []) := by
  obtain ⟨m, rfl⟩ : ∃ m, retries = m + 1 := ⟨retries - 1, by omega⟩
  simp [backoff_strategy, backoffLoop, h0, hnr]

/-- Witness for C4: an HTTP 404 on the first attempt surfaces unchanged
with an empty sleep list under the default configuration. -/
theorem backoff_nonretriable_immediate_witness :
    backoff_strategy 3 5
        (fun _ => (Except.error (PyExc.httpError 404) : Except PyExc (List String))) =
      (Except.error (PyExc.httpError 404), []) :=
  backoff_nonretriable_immediate _ 3 5 _ (by omega) rfl rfl

/-- C5: when every one of the `retries` attempts fails with a retriable
error, the wrapper raises the terminal exception with the max-retries
message, a `genericExc` that is distinct from every `httpError` it was
retrying. -/
theorem backoff_exhausted_distinct {α : Type} (f : Nat → Except PyExc α)
    (retries d : Nat)
    (hfail : ∀ j, j < retries → ∃ e, f j = Except.error e ∧ isRetriable e = true) :
    (backoff_strategy retries d f).1 =
      Except.error (PyExc.genericExc maxRetriesMsg) ∧
    ∀ s : Nat, PyExc.genericExc maxRetriesMsg ≠ PyExc.httpError s := by
  constructor
  · exact backoffLoop_exhaust f retries d 0 []
      (fun j hj => by simpa using hfail j hj)
  · intro s h
    exact PyExc.noConfusion h

/-- Witness for C5: three retriable 429 failures under the default
configuration end in the max-retries exception. -/
theorem backoff_exhausted_distinct_witness :
    (backoff_strategy 3 5
        (fun _ => (Except.error (PyExc.httpError 429) : Except PyExc (List String)))).1 =
      Except.error (PyExc.genericExc maxRetriesMsg) ∧
    ∀ s : Nat, PyExc.genericExc maxRetriesMsg ≠ PyExc.httpError s :=
  backoff_exhausted_distinct _ 3 5
    (fun _ _ => ⟨PyExc.httpError 429, rfl, rfl⟩)

/-- Helper: a raised exception anywhere in the page sequence aborts the
pagination body with that exception, as long as every page before it
carried a continuation token (so the loop was still running). -/
theorem goPages_append_error (pages : List Page) (e : PyExc)
    (rest : List (Except PyExc Page))
    (htok : ∀ p ∈ pages, p.nextPageToken.isSome = true) :
    goPages (pages.map Except.ok ++ Except.error e :: rest) = Except.error e := by
  induction pages with
  | nil => rfl
  | cons p ps ih =>
    obtain ⟨t, ht⟩ := Option.isSome_iff_exists.mp (htok p (by simp))
    simp only [List.map_cons, List.cons_append, goPages, ht, List.append_eq]
    rw [ih (fun q hq => htok q (by simp [hq]))]

/-- Helper: on an all-successful page sequence whose last page carries
no continuation token, the pagination body returns the concatenation of
the page item lists in page order. -/
theorem goPages_all_ok (body : List Page) (last : Page)
    (htok : ∀ p ∈ body, p.nextPageToken.isSome = true)
    (hlast : last.nextPageToken = none) :
    goPages ((body ++ [last]).map Except.ok) =
      Except.ok (((body ++ [last]).map Page.items).flatten) := by
  induction body with
  | nil => simp [goPages, hlast]
  | cons p ps ih =>
    obtain ⟨t, ht⟩ := Option.isSome_iff_exists.mp (htok p (by simp))
    simp only [List.cons_append, List.map_cons, goPages, ht, List.append_eq]
    rw [ih (fun q hq => htok q (by simp [hq]))]
    simp

/-- C3: for a sequence of successful pages in which every page but the
last carries a continuation token and the last carries none,
`get_video_ids` terminates and returns exactly the concatenation of the
item lists of all pages, in page order. -/
theorem get_video_ids_concat (body : List Page) (last : Page)
    (htok : ∀ p ∈ body, p.nextPageToken.isSome = true)
    (hlast : last.nextPageToken = none) :
    get_video_ids ((body ++ [last]).map Except.ok) =
      ((body ++ [last]).map Page.items).flatten := by
  simp only [get_video_ids, goPages_all_ok body last htok hlast]

/-- Witness for C3: two pages, the first with a token, the second final:
the output is the two item lists concatenated in order. -/
theorem get_video_ids_concat_witness :
    get_video_ids (([Page.mk ["a", "b"] (some "t")] ++ [Page.mk ["c"] none]).map
        Except.ok) =
      (([Page.mk ["a", "b"] (some "t")] ++ [Page.mk ["c"] none]).map
        Page.items).flatten :=
  get_video_ids_concat [Page.mk ["a", "b"] (some "t")] (Page.mk ["c"] none)
    (by decide) rfl

/-- C1 counterexample: a run in which the first page succeeds with items
["a", "b"] and a continuation token and the second fetch raises: the
source code (src/youtube.py lines 113-115) catches the exception and
returns the empty list, so the two already-collected items are
discarded, contradicting the claim that they are surfaced. -/
theorem get_video_ids_discards_counterexample :
    get_video_ids [Except.ok (Page.mk ["a", "b"] (some "t")),
        Except.error (PyExc.genericExc "boom")] = [] ∧
    (["a", "b"] : List String) ≠ [] :=
  ⟨rfl, by simp⟩

/-- C1 (amended): when a page fetch raises after any number of
successfully fetched token-carrying pages, `get_video_ids` logs the
error and returns the empty list: already-collected items are discarded,
and the failure is signalled only through the logged error message, not
through the returned value. -/
theorem get_video_ids_error_returns_empty (pages : List Page) (e : PyExc)
    (rest : List (Except PyExc Page))
    (htok : ∀ p ∈ pages, p.nextPageToken.isSome = true) :
    get_video_ids (pages.map Except.ok ++ Except.error e :: rest) = [] := by
  simp only [get_video_ids, goPages_append_error pages e rest htok]

/-- Witness for C1 (amended): one successful page then a raised
exception yields the empty list. -/
theorem get_video_ids_error_returns_empty_witness :
    get_video_ids ([Page.mk ["a"] (some "t")].map Except.ok ++
      Except.error (PyExc.genericExc "boom") :: []) = [] :=
  get_video_ids_error_returns_empty [Page.mk ["a"] (some "t")]
    (PyExc.genericExc "boom") [] (by decide)

/-- Helper: closed form of the main loop with its three accumulators:
each name contributes its `processChannel` output in input order, and
the progress values continue the enumeration from index i. -/
theorem mainLoop_spec (env : Env) (total : Nat) (names : List String) :
    ∀ (i : Nat) (cds : List ChannelStats) (vds : List VideoDetail) (ps : List ℚ),
      mainLoop env total names i cds vds ps =
        (cds ++ names.flatMap (fun n => (processChannel env n).1),
         vds ++ names.flatMap (fun n => (processChannel env n).2),
         ps ++ (List.range names.length).map
           (fun j : ℕ => ((i : ℚ) + (j : ℚ) + 1) / (total : ℚ))) := by
  induction names with
  | nil =>
    intro i cds vds ps
    simp [mainLoop]
  | cons name rest ih =>
    intro i cds vds ps
    simp only [mainLoop]
    rw [ih (i + 1) (cds ++ (processChannel env name).1)
      (vds ++ (processChannel env name).2)
      (ps ++ [((i : ℚ) + 1) / (total : ℚ)])]
    refine congrArg₂ Prod.mk ?_ (congrArg₂ Prod.mk ?_ ?_)
    · simp [List.flatMap_cons]
    · simp [List.flatMap_cons]
    · rw [List.append_assoc, List.singleton_append, List.length_cons,
        List.range_succ_eq_map, List.map_cons, List.map_map]
      congr 1
      congr 1
      · norm_num
      · exact List.map_congr_left (fun j _ => by
          simp only [Function.comp_apply, Nat.succ_eq_add_one]
          push_cast
          ring)

/-- Helper: closed form of the per-video detail loop: the accumulator is
extended by one record per id whose lookup returns an item, in input
order. -/
theorem fetchDetailsLoop_spec (videoInfo : String → Option VideoInfo)
    (ids : List String) :
    ∀ acc, fetchDetailsLoop videoInfo ids acc =
      acc ++ ids.filterMap (fun v => (videoInfo v).map (mkVideoDetail v)) := by
  induction ids with
  | nil =>
    intro acc
    simp [fetchDetailsLoop]
  | cons vid rest ih =>
    intro acc
    simp only [fetchDetailsLoop]
    cases h : videoInfo vid <;> simp [ih, List.filterMap_cons, h]

/-- C8: the collected data is a deterministic function of the input
name list and the remote responses; identifiers are processed in input
order (both output lists are the in-order concatenation of per-name
contributions, and the progress values enumerate the names in order),
and within one identifier the detail records follow the order in which
the paging mechanism returned the video ids. -/
theorem pipeline_deterministic_ordered :
    (∀ (env : Env) (names : List String),
      runPipeline env names =
        (names.flatMap (fun n => (processChannel env n).1),
         names.flatMap (fun n => (processChannel env n).2),
         (List.range names.length).map
           (fun j : ℕ => ((j : ℚ) + 1) / (names.length : ℚ)))) ∧
    (∀ (videoInfo : String → Option VideoInfo) (ids : List String),
      fetch_video_details videoInfo ids =
        ids.filterMap (fun v => (videoInfo v).map (mkVideoDetail v))) := by
  constructor
  · intro env names
    rw [runPipeline, mainLoop_spec env names.length names 0 [] [] []]
    simp
  · intro videoInfo ids
    rw [fetch_video_details, fetchDetailsLoop_spec]
    simp

/-- C6: a per-identifier failure at the resolution stage
(`get_channel_id` yields nothing) or the metadata stage
(`get_channel_stats` yields nothing) never aborts the rest of the run:
the channel records and video records collected over the whole input
list equal those collected over the list with the failing identifier
removed, so every remaining identifier is still attempted and its
results returned. -/
theorem pipeline_isolates_failure (env : Env) (pre post : List String)
    (bad : String)
    (hfail : env.get_channel_id bad = none ∨
      ∃ cid, env.get_channel_id bad = some cid ∧ env.get_channel_stats cid = none) :
    (runPipeline env (pre ++ bad :: post)).1 = (runPipeline env (pre ++ post)).1 ∧
    (runPipeline env (pre ++ bad :: post)).2.1 =
      (runPipeline env (pre ++ post)).2.1 := by
  have hbad : processChannel env bad = ([], []) := by
    rcases hfail with h | ⟨cid, hc, hs⟩
    · simp [processChannel, h]
    · simp [processChannel, hc, hs]
  rw [runPipeline, runPipeline, mainLoop_spec, mainLoop_spec]
  constructor
  · simp [List.flatMap_append, List.flatMap_cons, hbad]
  · simp [List.flatMap_append, List.flatMap_cons, hbad]

/-- Witness for C6: in the concrete remote `cenv` the middle name of
three fails to resolve; the collected channel and video records equal
those of the two-name run. -/
theorem pipeline_isolates_failure_witness :
    (runPipeline cenv (["x"] ++ "bad" :: ["y"])).1 =
      (runPipeline cenv (["x"] ++ ["y"])).1 ∧
    (runPipeline cenv (["x"] ++ "bad" :: ["y"])).2.1 =
      (runPipeline cenv (["x"] ++ ["y"])).2.1 :=
  pipeline_isolates_failure cenv ["x"] ["y"] "bad" (Or.inl (by simp [cenv]))

/-- C7: `main` reads the retry-attempt and initial-delay sliders but, as
in the source, never passes them to any fetch function, and
`backoff_strategy` is applied to no function in the repository; hence
for any fixed remote behaviour the collected channel data, video
details and progress values are identical under any two settings of the
two sliders. -/
theorem retry_config_no_effect (r1 d1 r2 d2 : Nat) (env : Env)
    (names : List String) :
    mainAnalyze r1 d1 env names = mainAnalyze r2 d2 env names := rfl

/-- C9: over a non-empty input list of N names, the progress signal is
emitted exactly once per identifier, the i-th emitted value (0-based)
being (i + 1) / N; the emitted sequence is strictly increasing and its
last element is 1. -/
theorem progress_signal (env : Env) (names : List String) (h : names ≠ []) :
    (runPipeline env names).2.2 =
      (List.range names.length).map
        (fun j : ℕ => ((j : ℚ) + 1) / (names.length : ℚ)) ∧
    List.Pairwise (fun a b : ℚ => a < b) (runPipeline env names).2.2 ∧
    (runPipeline env names).2.2.getLast? = some 1 ∧
    (runPipeline env names).2.2.length = names.length := by
  have hN : 0 < names.length := List.length_pos.mpr h
  have hchar : (runPipeline env names).2.2 =
      (List.range names.length).map
        (fun j : ℕ => ((j : ℚ) + 1) / (names.length : ℚ)) := by
    rw [runPipeline, mainLoop_spec]
    simp
  refine ⟨hchar, ?_, ?_, ?_⟩
  · rw [hchar]
    refine List.Pairwise.map _ ?_ (List.pairwise_lt_range names.length)
    intro a b hab
    have hab2 : (a : ℚ) < (b : ℚ) := by exact_mod_cast hab
    have hQ : (0 : ℚ) < (names.length : ℚ) := by exact_mod_cast hN
    gcongr
  · rw [hchar]
    obtain ⟨m, hm⟩ : ∃ m, names.length = m + 1 := ⟨names.length - 1, by omega⟩
    rw [hm, List.range_succ, List.map_append, List.map_cons, List.map_nil,
      List.getLast?_concat]
    congr 1
    push_cast
    rw [div_self]
    positivity
  · rw [hchar]
    simp

/-- Witness for C9: with the concrete remote `cenv` and two names the
progress signal has the stated closed form, is strictly increasing, has
length 2 and ends at 1. -/
theorem progress_signal_witness :
    (runPipeline cenv ["x", "y"]).2.2 =
      (List.range (["x", "y"] : List String).length).map
        (fun j : ℕ => ((j : ℚ) + 1) / ((["x", "y"] : List String).length : ℚ)) ∧
    List.Pairwise (fun a b : ℚ => a < b) (runPipeline cenv ["x", "y"]).2.2 ∧
    (runPipeline cenv ["x", "y"]).2.2.getLast? = some 1 ∧
    (runPipeline cenv ["x", "y"]).2.2.length = (["x", "y"] : List String).length :=
  progress_signal cenv ["x", "y"] (by simp)

/-- Helper: every character of a sanitised string has code point below
128. -/
theorem remove_emojis_ascii (s : String) :
    ∀ c ∈ (remove_emojis s).data, c.toNat < 128 := by
  intro c hc
  have hmem : c ∈ s.data.filter (fun c => c.toNat < 128) := hc
  simpa using (List.mem_filter.mp hmem).2

/-- Helper: every channel field line of the report is ASCII-only. -/
theorem channelLines_ascii (ch : ChannelStats) :
    ∀ line ∈ channelLines ch, ∀ c ∈ line.data, c.toNat < 128 := by
  intro line hline
  simp only [channelLines, List.mem_cons, List.not_mem_nil, or_false] at hline
  rcases hline with rfl | rfl | rfl | rfl <;> exact remove_emojis_ascii _

/-- Helper: every video field line of the report is ASCII-only. -/
theorem videoLines_ascii (v : VideoDetail) :
    ∀ line ∈ videoLines v, ∀ c ∈ line.data, c.toNat < 128 := by
  intro line hline
  simp only [videoLines, List.mem_cons, List.not_mem_nil, or_false] at hline
  rcases hline with rfl | rfl | rfl | rfl | rfl <;> exact remove_emojis_ascii _

/-- C10: every channel field and video field written into the exported
PDF report passes through `remove_emojis`, so every cell text of the
report is ASCII-only; the sanitizer maps any string to a string whose
characters all have code point below 128, and leaves a string that is
already ASCII-only unchanged. -/
theorem pdf_report_sanitized :
    (∀ (channel_data : List ChannelStats) (video_details : List VideoDetail),
      ∀ line ∈ generate_pdf_report channel_data video_details,
        ∀ c ∈ line.data, c.toNat < 128) ∧
    (∀ s : String, ∀ c ∈ (remove_emojis s).data, c.toNat < 128) ∧
    (∀ s : String, (∀ c ∈ s.data, c.toNat < 128) → remove_emojis s = s) := by
  refine ⟨?_, remove_emojis_ascii, ?_⟩
  · intro channel_data video_details line hline
    have hhdr1 : ∀ c ∈ ("Channel Comparison" : String).data, c.toNat < 128 := by
      decide
    have hhdr2 : ∀ c ∈ ("Video Details" : String).data, c.toNat < 128 := by
      decide
    simp only [generate_pdf_report, List.mem_cons, List.mem_append,
      List.mem_flatMap] at hline
    rcases hline with (rfl | ⟨ch, _, hl⟩) | (rfl | ⟨v, _, hl⟩)
    · exact hhdr1
    · exact channelLines_ascii ch line hl
    · exact hhdr2
    · exact videoLines_ascii v line hl
  · intro s hs
    have hfilter : s.data.filter (fun c => c.toNat < 128) = s.data :=
      List.filter_eq_self.mpr (fun c hc => by
        simpa using hs c hc)
    show String.mk (s.data.filter (fun c => c.toNat < 128)) = s
    rw [hfilter]

/-- Witness for C10: an ASCII-only string passes through the sanitizer
unchanged. -/
theorem pdf_report_sanitized_witness : remove_emojis "abc" = "abc" :=
  pdf_report_sanitized.2.2 "abc" (by decide)
